import Mathlib

/-!
Shallow embedding of the EDA web tool (src/app.py): a Flask app that ingests a
CSV or Excel table, coerces numeric-looking text columns, imputes missing
values (mean for numeric columns, mode for text columns), renders plots, and
assembles an HTML report plus CSV and PDF exports.  Tables are modelled
column-major; cell values are rationals (pandas floats), strings, or missing
(NaN/None).  Library calls (pandas, seaborn) are modelled by their contracts
at the granularity the program uses them.
-/

/-- Cell value of a table: a number (pandas numeric, modelled as a rational),
a string, or a missing entry (NaN / None). -/
inductive Value where
  | num (q : ℚ)
  | text (s : String)
  | missing
deriving DecidableEq, Repr

/-- Pandas dtype of a column, at the granularity the program distinguishes:
`df[col].dtype == "object"` versus `pd.api.types.is_numeric_dtype`. -/
inductive Dtype where
  | numeric
  | object
deriving DecidableEq, Repr

/-- One column of a DataFrame: its dtype and its cells. -/
structure Col where
  dtype : Dtype
  cells : List Value
deriving DecidableEq, Repr

/-- A pandas DataFrame: ordered named columns. -/
structure DataFrame where
  cols : List (String × Col)
deriving DecidableEq, Repr

/-- Whether a value is a (non-missing) number. -/
def Value.isNum : Value → Bool
  | .num _ => true
  | _ => false

/-- Whether a value is the missing marker (NaN). -/
def Value.isMissing : Value → Bool
  | .missing => true
  | _ => false

/-- Numeric value of a decimal digit list, most significant first. -/
def digitsVal (cs : List Char) : ℕ :=
  cs.foldl (fun a c => 10 * a + (c.toNat - 48)) 0

/-- Model of parsing one string as a number, as `pd.to_numeric` does on a
single string: an optional sign, an integer part and an optional fractional
part, at least one digit overall.  Strings such as "abc", "", "nan" or "1,2"
do not parse (to_numeric maps "nan" to NaN, which the program counts as
missing, so mapping it to failure here is faithful to how the result is
used). -/
def parseNumChars (cs : List Char) : Option ℚ :=
  let sgn : ℚ := match cs with | '-' :: _ => -1 | _ => 1
  let body : List Char := match cs with | '-' :: t => t | '+' :: t => t | _ => cs
  let p := body.span Char.isDigit
  match p.2 with
  | [] => if p.1 = [] then none else some (sgn * (digitsVal p.1 : ℚ))
  | '.' :: fp =>
    if fp.all Char.isDigit && (!(p.1.isEmpty && fp.isEmpty))
    then some (sgn * ((digitsVal p.1 : ℚ) + (digitsVal fp : ℚ) / ((10 : ℚ) ^ fp.length)))
    else none
  | _ => none

/-- Parsing one string as a number (see `parseNumChars`). -/
def parseNum (s : String) : Option ℚ :=
  parseNumChars s.toList

/-- The string cleanup of line 36, `.str.replace(',', '').str.strip()`:
remove every comma, then strip whitespace from both ends. -/
def cleanNumChars (cs : List Char) : List Char :=
  let noComma := cs.filter (fun c => c != ',')
  ((noComma.dropWhile Char.isWhitespace).reverse.dropWhile Char.isWhitespace).reverse

/-- Line 36 of app.py applied to one cell:
`pd.to_numeric(df[col].astype(str).str.replace(',', '').str.strip(), errors="coerce")`.
A missing cell goes through astype(str) as "nan" and comes back NaN; a string
cell has commas removed and surrounding whitespace stripped, then is parsed,
unparsable strings becoming NaN (missing). -/
def toNumericCoerce : Value → Value
  | .missing => .missing
  | .num q => .num q
  | .text s =>
    match parseNumChars (cleanNumChars s.toList) with
    | some q => .num q
    | none => .missing

/-- Lines 34-41 of app.py for one column: an object column is replaced by its
coerced values and classified numeric when `converted.notna().sum() /
len(converted) > 0.5`, i.e. when strictly more than half of ALL its cells
(missing ones included in the denominator) parse; a numeric-dtype column is
classified numeric as is.  Returns the (possibly converted) column and the
classification flag.  (On a zero-row column Python would raise
ZeroDivisionError; here the comparison is simply false, and the theorems that
depend on the ratio assume at least one row.) -/
def convertCol (c : Col) : Col × Bool :=
  match c.dtype with
  | .object =>
    let converted := c.cells.map toNumericCoerce
    if c.cells.length < 2 * converted.countP Value.isNum
    then (⟨Dtype.numeric, converted⟩, true)
    else (c, false)
  | .numeric => (c, true)

/-- The coercion loop (lines 34-41): every column converted in order, and
`numeric_cols` collected as the names flagged numeric, in column order. -/
def coerceStep (df : DataFrame) : DataFrame × List String :=
  let conv := df.cols.map (fun nc => (nc.1, convertCol nc.2))
  (⟨conv.map (fun nc => (nc.1, nc.2.1))⟩,
   conv.filterMap (fun nc => if nc.2.2 then some nc.1 else none))

/-- The numbers held by the non-missing cells of a column. -/
def numCells (cells : List Value) : List ℚ :=
  cells.filterMap (fun v => match v with | .num q => some q | _ => none)

/-- Model of `df[col].mean()`: the arithmetic mean of the non-missing values,
or NaN (modelled as `none`) when every value is missing. -/
def colMean (cells : List Value) : Option ℚ :=
  let qs := numCells cells
  if qs.length = 0 then none else some (qs.sum / (qs.length : ℚ))

/-- Line 45 of app.py for one column: `df[col].fillna(df[col].mean(), inplace=True)`.
When the mean is NaN (all cells missing) fillna(NaN) changes nothing. -/
def meanFill (cells : List Value) : List Value :=
  match colMean cells with
  | none => cells
  | some m => cells.map (fun v => match v with | .missing => .num m | _ => v)

/-- Lines 44-45 of app.py: mean-fill every column of numeric dtype.  After the
coercion loop the columns of numeric dtype are exactly those named in
`numeric_cols` (column names are assumed distinct, as for any well-formed
ingested table). -/
def meanStep (df : DataFrame) : DataFrame :=
  ⟨df.cols.map (fun nc =>
    match nc.2.dtype with
    | .numeric => (nc.1, ⟨Dtype.numeric, meanFill nc.2.cells⟩)
    | .object => nc)⟩

/-- The strings held by the non-missing text cells of a column. -/
def textCells (cells : List Value) : List String :=
  cells.filterMap (fun v => match v with | .text s => some s | _ => none)

/-- Lexicographic comparison of character lists by code point. -/
def charListLt : List Char → List Char → Bool
  | [], [] => false
  | [], _ :: _ => true
  | _ :: _, [] => false
  | a :: as, b :: bs => if a < b then true else if b < a then false else charListLt as bs

/-- Lexicographic comparison of strings by code point, as Python compares the
candidate mode values when pandas sorts them. -/
def strLtb (s t : String) : Bool :=
  charListLt s.toList t.toList

/-- Model of `df[col].mode()[0]` on an object column: the most frequent
non-missing string; on ties, mode() returns the tied values sorted ascending
and [0] selects the smallest.  On a column with no non-missing string the mode
series is empty and [0] raises KeyError, modelled as `none`. -/
def colMode (cells : List Value) : Option String :=
  let ss := textCells cells
  let maxCnt := (ss.map (fun s => ss.count s)).foldr max 0
  (ss.filter (fun s => ss.count s = maxCnt)).foldr
    (fun s acc =>
      match acc with
      | none => some s
      | some t => some (if strLtb s t then s else t)) none

/-- Lines 49-50 of app.py for one object column:
`if not df[col].empty: df[col].fillna(df[col].mode()[0], inplace=True)`.
The guard tests for zero ROWS only; a nonempty column whose values are all
missing reaches mode()[0] and raises (returns `none`). -/
def modeFill (cells : List Value) : Option (List Value) :=
  if cells.length = 0 then some cells
  else
    match colMode cells with
    | some m => some (cells.map (fun v => match v with | .missing => .text m | _ => v))
    | none => none

/-- Mode imputation over a column list, failing at the first object column on
which `modeFill` raises, as the Python loop does. -/
def modeCols : List (String × Col) → Option (List (String × Col))
  | [] => some []
  | nc :: rest =>
    match nc.2.dtype with
    | .numeric => (modeCols rest).map (fun r => nc :: r)
    | .object =>
      match modeFill nc.2.cells with
      | none => none
      | some cells2 => (modeCols rest).map (fun r => (nc.1, ⟨Dtype.object, cells2⟩) :: r)

/-- Lines 48-50 of app.py: mode-fill every column of object dtype
(`df.select_dtypes(include="object")` after the coercion loop). -/
def modeStep (df : DataFrame) : Option DataFrame :=
  (modeCols df.cols).map (fun l => ⟨l⟩)

/-- The cleaning part of `generate_plots` (lines 33-50): coercion, then mean
imputation, then mode imputation; `none` models an uncaught exception.
Returns the cleaned frame and the numeric column names. -/
def cleanDF (df : DataFrame) : Option (DataFrame × List String) :=
  let r := coerceStep df
  (modeStep (meanStep r.1)).map (fun d2 => (d2, r.2))

/-- One generated image, identified the way the code builds it: a histogram
or box plot of a named column, or the correlation heatmap. -/
inductive PlotImg where
  | hist (col : String)
  | box (col : String)
  | heat
deriving DecidableEq, Repr

/-- Column lookup `df[col]` (first column of that name). -/
def colByName (df : DataFrame) (n : String) : Option Col :=
  (df.cols.find? (fun nc => nc.1 == n)).map (fun nc => nc.2)

/-- Number of non-missing cells of a column (`len(df[col].dropna())`). -/
def nonMissingCount (c : Col) : ℕ :=
  c.cells.countP (fun v => !v.isMissing)

/-- The plotting loop (lines 53-75): for each name in `numeric_cols`, in
order, skip the column when `df[col].dropna().empty`, else emit its histogram
then its box plot. -/
def perColImages (df : DataFrame) : List String → List PlotImg
  | [] => []
  | n :: rest =>
    (match colByName df n with
     | some c => if nonMissingCount c = 0 then [] else [.hist n, .box n]
     | none => []) ++ perColImages df rest

/-- Lines 53-86: the per-column plots, then the correlation heatmap exactly
when `len(numeric_cols) > 1` (counting ALL numeric columns, also the ones the
loop skipped). -/
def makeImages (df : DataFrame) (ncols : List String) : List PlotImg :=
  perColImages df ncols ++ (if 1 < ncols.length then [PlotImg.heat] else [])

/-- `generate_plots` (lines 29-88): clean the frame in place, produce the
image sequence, and return both.  `none` models an uncaught exception. -/
def generate_plots (df : DataFrame) : Option (List PlotImg × DataFrame) :=
  (cleanDF df).map (fun r => (makeImages r.1 r.2, r.1))

/-- The allowed upload extensions (line 23 of app.py). -/
def ALLOWED_EXTENSIONS : List String := ["csv", "xlsx"]

/-- Characters after the last dot (`filename.rsplit(".", 1)[1]` when a dot is
present). -/
def extAfterLastDot (cs : List Char) : List Char :=
  (cs.reverse.takeWhile (fun c => c != '.')).reverse

/-- Lines 25-26 of app.py:
`"." in filename and filename.rsplit(".", 1)[1].lower() in ALLOWED_EXTENSIONS`.
The part after the last dot, lowercased, must be an allowed extension. -/
def allowed_file (filename : String) : Bool :=
  let cs := filename.toList
  cs.contains '.' &&
    (ALLOWED_EXTENSIONS.map String.toList).contains
      ((extAfterLastDot cs).map Char.toLower)

/-- Characters werkzeug.secure_filename keeps: ASCII alphanumerics and
underscore, dot, dash. -/
def keepFilenameChar (c : Char) : Bool :=
  c.isAlphanum || c == '_' || c == '.' || c == '-'

/-- Characters secure_filename strips from both ends. -/
def stripEdgeChar (c : Char) : Bool :=
  c == '.' || c == '_'

/-- Model of `werkzeug.utils.secure_filename` on ordinary ASCII names: runs of
whitespace become a single underscore, every character outside
[A-Za-z0-9_.-] is dropped, and leading or trailing dots and underscores are
stripped.  (The windows reserved-name special case is outside the inputs the
claims use.)  `splitWsChars` models Python str.split with no argument:
maximal whitespace-free runs, empty runs included here and filtered by the
caller. -/
def splitWsChars (cs : List Char) : List (List Char) :=
  cs.foldr
    (fun c acc =>
      if Char.isWhitespace c then [] :: acc
      else
        match acc with
        | [] => [[c]]
        | w :: ws => (c :: w) :: ws)
    [[]]

def secure_filename (filename : String) : String :=
  let parts := (splitWsChars filename.toList).filter (fun w => w != [])
  let joined := List.intercalate ['_'] parts
  let kept := joined.filter keepFilenameChar
  String.mk ((kept.dropWhile stripEdgeChar).reverse.dropWhile stripEdgeChar).reverse

/-- Which reader the upload handler dispatches to (lines 135-138 of app.py):
`pd.read_csv` when the stored filename ends in ".csv" (case sensitive), else
`pd.read_excel`. -/
inductive ParseRoute where
  | csvReader
  | excelReader
deriving DecidableEq, Repr

/-- The body the upload endpoint answers with. -/
inductive HttpResponse where
  | noFileMsg
  | invalidTypeMsg
  | serverError
  | htmlReport
deriving DecidableEq, Repr

/-- Observable outcome of one call to the upload endpoint: the response, which
file (if any) was stored under uploads/, which reader (if any) parsing used,
whether static/cleaned_data.csv and static/report.pdf were written, and what
the HTML report shows. -/
structure UploadTrace where
  response : HttpResponse
  savedUploadAs : Option String
  parsedWith : Option ParseRoute
  wroteCleanedCsv : Bool
  wrotePdf : Bool
  renderedTable : Option DataFrame
  renderedPlots : List PlotImg
deriving DecidableEq, Repr

/-- Model of `df.head(k)`. -/
def headRows (k : ℕ) (df : DataFrame) : DataFrame :=
  ⟨df.cols.map (fun nc => (nc.1, ⟨nc.2.dtype, nc.2.cells.take k⟩))⟩

/-- The upload endpoint, `upload_file` (lines 122-156 of app.py).  `hasFile`
models a present, nonempty file field; `parsed` is the table the dispatched
reader yields from the stored file.  Rejections happen before the file is
saved and before any parsing.  On success the handler renders
`df.head(20)` — and since `generate_plots` mutates `df` in place and returns
the same object as `cleaned_df`, the frame rendered is the CLEANED one. -/
def upload_file (hasFile : Bool) (filename : String) (parsed : DataFrame) :
    UploadTrace :=
  if !hasFile then
    ⟨HttpResponse.noFileMsg, none, none, false, false, none, []⟩
  else if !allowed_file filename then
    ⟨HttpResponse.invalidTypeMsg, none, none, false, false, none, []⟩
  else
    let fn := secure_filename filename
    let route := if List.isSuffixOf ".csv".toList fn.toList then ParseRoute.csvReader
                 else ParseRoute.excelReader
    match generate_plots parsed with
    | none => ⟨HttpResponse.serverError, some fn, some route, false, false, none, []⟩
    | some r =>
      ⟨HttpResponse.htmlReport, some fn, some route, true, true,
       some (headRows 20 r.2), r.1⟩

/-- Whether a written-out cell reads back as part of a numeric column: an
empty field (missing) or a field `read_csv` parses as a number.  A numeric
cell inside an object column never occurs in written-out frames, so it is
counted as blocking. -/
def plainCellNum : Value → Bool
  | .missing => true
  | .text s => (parseNum s).isSome
  | .num _ => false

/-- Model of `read_csv` after `to_csv` on one column (lines 144-145 and 136 of
app.py composed).  A numeric column round-trips exactly: pandas writes floats
with repr, whose string form parses back to the same double, and NaN is
written as an empty field and read back as NaN.  An object column is written
cell by cell (missing and the empty string both become an empty field, hence
missing on the way back); read_csv types the column numeric when every
non-empty field parses as a number, else it stays an object column of the
same strings. -/
def roundtripCol (c : Col) : Col :=
  match c.dtype with
  | .numeric => c
  | .object =>
    let cl := c.cells.map (fun v => if v = Value.text "" then Value.missing else v)
    if cl.all plainCellNum then
      ⟨Dtype.numeric, cl.map (fun v =>
        match v with
        | .text s => match parseNum s with | some q => Value.num q | none => Value.missing
        | v => v)⟩
    else ⟨Dtype.object, cl⟩

/-- Serializing a frame with `to_csv` (line 145) and re-ingesting the file
with `read_csv` (line 136), column by column. -/
def reingest (df : DataFrame) : DataFrame :=
  ⟨df.cols.map (fun nc => (nc.1, roundtripCol nc.2))⟩

/-- Condition for a column to be reclassified numeric, taken verbatim from the
claim wording, for comparison with the code: at least 50 percent of the
non-empty values parse as numbers after separator stripping. -/
def specNumericCond (c : Col) : Bool :=
  c.cells.countP (fun v => !v.isMissing) ≤
    2 * c.cells.countP (fun v => (toNumericCoerce v).isNum)

/-- Whether a numeric-column name is actually plotted: the plotting loop skips
a column whose non-missing part is empty. -/
def colPlotted (df : DataFrame) (n : String) : Bool :=
  match colByName df n with
  | some c => nonMissingCount c != 0
  | none => false

/-- Whether no cell of the frame is missing. -/
def dfNoMissing (df : DataFrame) : Bool :=
  df.cols.all (fun nc => nc.2.cells.all (fun v => !v.isMissing))

/-- Whether no text cell of the frame is the empty string. -/
def dfNoEmptyText (df : DataFrame) : Bool :=
  df.cols.all (fun nc => nc.2.cells.all (fun v => v != Value.text ""))

/-- Whether every object column is nonempty and holds at least one cell that
blocks a numeric read_csv typing (a string that does not parse). -/
def objColsBlocked (df : DataFrame) : Bool :=
  df.cols.all (fun nc =>
    nc.2.dtype != Dtype.object ||
      (nc.2.cells.length != 0 && !(nc.2.cells.all plainCellNum)))

/-- Whether every object column is below the numeric-coercion threshold of
lines 36-37, so that the coercion loop leaves it as text. -/
def objColsStayText (df : DataFrame) : Bool :=
  df.cols.all (fun nc =>
    nc.2.dtype != Dtype.object ||
      !(nc.2.cells.length < 2 * (nc.2.cells.map toNumericCoerce).countP Value.isNum))

/-- Name and row count of every column, in order: the frame data the
invariant claims speak about. -/
def shape (df : DataFrame) : List (String × ℕ) :=
  df.cols.map (fun nc => (nc.1, nc.2.cells.length))

/-- Unfolding of a successful `generate_plots` run into its stages. -/
theorem generate_plots_eq_some {df : DataFrame} {out : List PlotImg × DataFrame}
    (h : generate_plots df = some out) :
    ∃ d2, modeStep (meanStep (coerceStep df).1) = some d2 ∧
      out = (makeImages d2 (coerceStep df).2, d2) := by
  simp only [generate_plots, cleanDF] at h
  cases hm : modeStep (meanStep (coerceStep df).1) with
  | none => rw [hm] at h; simp at h
  | some d2 =>
    rw [hm] at h
    exact ⟨d2, rfl, (Option.some.inj h).symm⟩

/-- Converting a column never changes its cell count. -/
theorem convertCol_cells_length (c : Col) :
    ((convertCol c).1).cells.length = c.cells.length := by
  cases c with
  | mk dt cells =>
    cases dt with
    | numeric => rfl
    | object =>
      simp only [convertCol]
      split
      · simp
      · rfl

/-- Mean filling never changes the cell count. -/
theorem meanFill_length (cells : List Value) :
    (meanFill cells).length = cells.length := by
  unfold meanFill
  cases colMean cells with
  | none => rfl
  | some m => simp

/-- Mode filling, when it does not raise, never changes the cell count. -/
theorem modeFill_length {cells cells2 : List Value}
    (h : modeFill cells = some cells2) : cells2.length = cells.length := by
  unfold modeFill at h
  split at h
  · cases h; rfl
  · cases hm : colMode cells with
    | none => rw [hm] at h; cases h
    | some m => rw [hm] at h; cases h; simp

/-- Mode imputation, when it does not raise, preserves the names and cell
counts of all columns. -/
theorem modeCols_shape {l l' : List (String × Col)} (h : modeCols l = some l') :
    l'.map (fun nc => (nc.1, nc.2.cells.length)) =
      l.map (fun nc => (nc.1, nc.2.cells.length)) := by
  induction l generalizing l' with
  | nil => cases h; rfl
  | cons nc rest ih =>
    unfold modeCols at h
    cases hd : nc.2.dtype with
    | numeric =>
      rw [hd] at h
      cases hr : modeCols rest with
      | none => rw [hr] at h; cases h
      | some r => rw [hr] at h; cases h; simp [ih hr]
    | object =>
      rw [hd] at h
      cases hf : modeFill nc.2.cells with
      | none => rw [hf] at h; cases h
      | some cells2 =>
        rw [hf] at h
        cases hr : modeCols rest with
        | none => rw [hr] at h; cases h
        | some r =>
          rw [hr] at h; cases h
          simp [ih hr, modeFill_length hf]

/-- Mode imputation leaves a numeric-dtype entry untouched, position by
position. -/
theorem modeCols_get?_numeric {l l' : List (String × Col)} (h : modeCols l = some l')
    {j : ℕ} {nc : String × Col} (hj : l.get? j = some nc)
    (hd : nc.2.dtype = Dtype.numeric) : l'.get? j = some nc := by
  induction l generalizing l' j with
  | nil => simp at hj
  | cons hd0 rest ih =>
    unfold modeCols at h
    cases hdt : hd0.2.dtype with
    | numeric =>
      rw [hdt] at h
      cases hr : modeCols rest with
      | none => rw [hr] at h; cases h
      | some r =>
        rw [hr] at h; cases h
        cases j with
        | zero => simpa using hj
        | succ j => exact ih hr (by simpa using hj)
    | object =>
      rw [hdt] at h
      cases hf : modeFill hd0.2.cells with
      | none => rw [hf] at h; cases h
      | some cells2 =>
        rw [hf] at h
        cases hr : modeCols rest with
        | none => rw [hr] at h; cases h
        | some r =>
          rw [hr] at h; cases h
          cases j with
          | zero =>
            simp only [List.get?] at hj
            cases hj
            rw [hdt] at hd
            cases hd
          | succ j => exact ih hr (by simpa using hj)

/-- Extracting the column list of a successful mode-imputation step. -/
theorem modeStep_cols {df d2 : DataFrame} (h : modeStep df = some d2) :
    modeCols df.cols = some d2.cols := by
  unfold modeStep at h
  cases hm : modeCols df.cols with
  | none => rw [hm] at h; cases h
  | some l =>
    rw [hm] at h
    have : d2 = ⟨l⟩ := (Option.some.inj h).symm
    rw [this]

/-- Mean imputation changes neither names nor row counts. -/
theorem shape_meanStep (df : DataFrame) : shape (meanStep df) = shape df := by
  unfold shape meanStep
  simp only [List.map_map]
  apply List.map_congr_left
  intro nc _
  cases hdt : nc.2.dtype <;> simp [Function.comp, hdt, meanFill_length]

/-- Coercion changes neither names nor row counts. -/
theorem shape_coerceStep (df : DataFrame) : shape (coerceStep df).1 = shape df := by
  unfold shape coerceStep
  simp only [List.map_map]
  apply List.map_congr_left
  intro nc _
  simp [Function.comp, convertCol_cells_length]

/-- Mode imputation, when it does not raise, changes neither names nor row
counts. -/
theorem shape_modeStep {df d2 : DataFrame} (h : modeStep df = some d2) :
    shape d2 = shape df := by
  exact modeCols_shape (modeStep_cols h)

/-- C5: for every input table on which the cleaning routine succeeds, the
cleaned table has the same row count as the ingested one, preserves the
column order, and introduces no new columns (same column names, in the same
order, each with the same number of cells). -/
theorem c5_cleaned_shape (df : DataFrame) (out : List PlotImg × DataFrame)
    (h : generate_plots df = some out) : shape out.2 = shape df := by
  obtain ⟨d2, hm, rfl⟩ := generate_plots_eq_some h
  calc shape d2 = shape (meanStep (coerceStep df).1) := shape_modeStep hm
    _ = shape (coerceStep df).1 := shape_meanStep _
    _ = shape df := shape_coerceStep df

theorem c5_cleaned_shape_witness :
    generate_plots ⟨[("a", ⟨Dtype.numeric, [Value.num 1]⟩)]⟩ =
      some ([PlotImg.hist "a", PlotImg.box "a"],
        ⟨[("a", ⟨Dtype.numeric, [Value.num 1]⟩)]⟩) ∧
    shape ((([PlotImg.hist "a", PlotImg.box "a"],
        (⟨[("a", ⟨Dtype.numeric, [Value.num 1]⟩)]⟩ : DataFrame)) :
          List PlotImg × DataFrame).2) =
      shape ⟨[("a", ⟨Dtype.numeric, [Value.num 1]⟩)]⟩ :=
  ⟨by decide, c5_cleaned_shape _ _ (by decide)⟩

/-- C6: for every numeric column (position j after coercion) with at least one
non-missing value, the cleaned table holds, at that position, the column with
every missing entry replaced by the arithmetic mean of the non-missing
values, and the result contains no missing entry. -/
theorem c6_mean_imputation (df : DataFrame) (out : List PlotImg × DataFrame)
    (j : ℕ) (nm : String) (c1 : Col)
    (h : generate_plots df = some out)
    (h1 : (coerceStep df).1.cols.get? j = some (nm, c1))
    (hdt : c1.dtype = Dtype.numeric)
    (hnz : numCells c1.cells ≠ []) :
    ∃ m : ℚ,
      colMean c1.cells = some m ∧
      m = (numCells c1.cells).sum / ((numCells c1.cells).length : ℚ) ∧
      out.2.cols.get? j = some (nm, ⟨Dtype.numeric,
        c1.cells.map (fun v => if v = Value.missing then Value.num m else v)⟩) ∧
      Value.missing ∉
        c1.cells.map (fun v => if v = Value.missing then Value.num m else v) := by
  obtain ⟨d2, hm, rfl⟩ := generate_plots_eq_some h
  have hlen : (numCells c1.cells).length ≠ 0 := by
    intro h0
    exact hnz (List.length_eq_zero.mp h0)
  refine ⟨(numCells c1.cells).sum / ((numCells c1.cells).length : ℚ), ?_, rfl, ?_, ?_⟩
  · unfold colMean
    rw [if_neg hlen]
  · have hfill : meanFill c1.cells =
        c1.cells.map (fun v =>
          if v = Value.missing
          then Value.num ((numCells c1.cells).sum / ((numCells c1.cells).length : ℚ))
          else v) := by
      unfold meanFill colMean
      rw [if_neg hlen]
      exact List.map_congr_left (fun v _ => by cases v <;> simp)
    have h2 : (meanStep (coerceStep df).1).cols.get? j =
        some (nm, ⟨Dtype.numeric, meanFill c1.cells⟩) := by
      unfold meanStep
      rw [List.get?_map, h1]
      simp [hdt]
    have h3 := modeCols_get?_numeric (modeStep_cols hm) h2 rfl
    rw [hfill] at h3
    exact h3
  · intro hmem
    rcases List.mem_map.mp hmem with ⟨v, _, heq⟩
    by_cases hv : v = Value.missing
    · rw [if_pos hv] at heq
      cases heq
    · rw [if_neg hv] at heq
      exact hv heq

theorem c6_mean_imputation_witness :
    generate_plots ⟨[("a", ⟨Dtype.numeric, [Value.num 2, Value.missing, Value.num 4]⟩)]⟩ =
      some ([PlotImg.hist "a", PlotImg.box "a"],
        ⟨[("a", ⟨Dtype.numeric, [Value.num 2, Value.num 3, Value.num 4]⟩)]⟩) ∧
    (∃ m : ℚ,
      colMean [Value.num 2, Value.missing, Value.num 4] = some m ∧
      m = (numCells [Value.num 2, Value.missing, Value.num 4]).sum /
            ((numCells [Value.num 2, Value.missing, Value.num 4]).length : ℚ) ∧
      (([PlotImg.hist "a", PlotImg.box "a"],
          (⟨[("a", ⟨Dtype.numeric, [Value.num 2, Value.num 3, Value.num 4]⟩)]⟩ : DataFrame)) :
            List PlotImg × DataFrame).2.cols.get? 0 =
        some ("a", ⟨Dtype.numeric,
          ([Value.num 2, Value.missing, Value.num 4]).map
            (fun v => if v = Value.missing then Value.num m else v)⟩) ∧
      Value.missing ∉
        ([Value.num 2, Value.missing, Value.num 4]).map
          (fun v => if v = Value.missing then Value.num m else v)) :=
  by
  have hmean : colMean [Value.num 2, Value.missing, Value.num 4] = some 3 := by
    simp [colMean, numCells]
    norm_num
  have hfill : meanFill [Value.num 2, Value.missing, Value.num 4] =
      [Value.num 2, Value.num 3, Value.num 4] := by
    unfold meanFill
    rw [hmean]
    decide
  have hgen : generate_plots
      ⟨[("a", ⟨Dtype.numeric, [Value.num 2, Value.missing, Value.num 4]⟩)]⟩ =
      some ([PlotImg.hist "a", PlotImg.box "a"],
        ⟨[("a", ⟨Dtype.numeric, [Value.num 2, Value.num 3, Value.num 4]⟩)]⟩) := by
    simp only [generate_plots, cleanDF]
    have hms : meanStep (coerceStep
        ⟨[("a", ⟨Dtype.numeric, [Value.num 2, Value.missing, Value.num 4]⟩)]⟩).1 =
        ⟨[("a", ⟨Dtype.numeric, [Value.num 2, Value.num 3, Value.num 4]⟩)]⟩ := by
      show (⟨[("a", ⟨Dtype.numeric,
        meanFill [Value.num 2, Value.missing, Value.num 4]⟩)]⟩ : DataFrame) = _
      rw [hfill]
    rw [hms]
    decide
  exact ⟨hgen,
    c6_mean_imputation _ _ 0 "a" ⟨Dtype.numeric, [Value.num 2, Value.missing, Value.num 4]⟩
      hgen (by decide) rfl (by decide)⟩

/-- C1 counterexample: a table whose cleaning changes a value inside the first
20 rows.  The upload endpoint renders the cleaned frame (the code mutates the
parsed frame in place), so the rendered table differs from the first 20 rows
of the original, pre-cleaning table, refuting the claim at this input. -/
theorem c1_counterexample :
    (upload_file true "data.csv"
        ⟨[("c", ⟨Dtype.object, [Value.text "x", Value.text "x", Value.missing]⟩)]⟩).renderedTable ≠
      some (headRows 20
        ⟨[("c", ⟨Dtype.object, [Value.text "x", Value.text "x", Value.missing]⟩)]⟩) := by
  decide

/-- C1 amended: the HTML view renders the first 20 rows of the CLEANED table.
The handler passes the same frame object that `generate_plots` mutated in
place, so original and cleaned coincide at render time. -/
theorem c1_html_renders_cleaned_head (filename : String) (df : DataFrame)
    (out : List PlotImg × DataFrame)
    (hext : allowed_file filename = true)
    (hgen : generate_plots df = some out) :
    (upload_file true filename df).renderedTable = some (headRows 20 out.2) := by
  simp [upload_file, hext, hgen]

theorem c1_html_renders_cleaned_head_witness :
    allowed_file "data.csv" = true ∧
    generate_plots ⟨[("c", ⟨Dtype.object, [Value.text "x", Value.text "x", Value.missing]⟩)]⟩ =
      some ([], ⟨[("c", ⟨Dtype.object, [Value.text "x", Value.text "x", Value.text "x"]⟩)]⟩) ∧
    (upload_file true "data.csv"
        ⟨[("c", ⟨Dtype.object, [Value.text "x", Value.text "x", Value.missing]⟩)]⟩).renderedTable =
      some (headRows 20
        (((([] : List PlotImg),
          (⟨[("c", ⟨Dtype.object, [Value.text "x", Value.text "x", Value.text "x"]⟩)]⟩ : DataFrame)) :
            List PlotImg × DataFrame)).2) :=
  ⟨by decide, by decide,
   c1_html_renders_cleaned_head "data.csv" _ _ (by decide) (by decide)⟩

/-- C2 counterexample: a text column holding one parsable value and one
missing value.  All (100 percent, hence at least 50 percent) of its non-empty
values parse, so the claim says it is reclassified numeric; the code divides
by the total number of cells (1 of 2, not strictly more than half) and leaves
it as text. -/
theorem c2_counterexample :
    specNumericCond ⟨Dtype.object, [Value.text "1", Value.missing]⟩ = true ∧
    (convertCol ⟨Dtype.object, [Value.text "1", Value.missing]⟩).2 = false := by
  decide

/-- C2 amended: a text column is reclassified numeric exactly when STRICTLY
more than 50 percent of ALL of its values, missing ones included in the
denominator, parse as numbers after separator stripping; at exactly half or
below it stays text.  (The nonemptiness hypothesis excludes the zero-row
frame, on which the code itself would divide by zero.) -/
theorem c2_numeric_threshold (c : Col) (hdt : c.dtype = Dtype.object)
    (hne : c.cells ≠ []) :
    (convertCol c).2 = true ↔
      c.cells.length < 2 * c.cells.countP (fun v => (toNumericCoerce v).isNum) := by
  obtain ⟨dt, cells⟩ := c
  simp only at hdt
  subst hdt
  simp only [convertCol, List.countP_map]
  split <;> simp_all [Function.comp_def]

theorem c2_numeric_threshold_witness :
    ((convertCol ⟨Dtype.object, [Value.text "1"]⟩).2 = true ↔
      ([Value.text "1"] : List Value).length <
        2 * ([Value.text "1"] : List Value).countP (fun v => (toNumericCoerce v).isNum)) :=
  c2_numeric_threshold ⟨Dtype.object, [Value.text "1"]⟩ rfl (by decide)

/-- C3: a nonempty text column whose values are all missing is NOT skipped:
the guard of line 49 only tests for zero rows, `df[col].mode()` drops the
missing values and returns an empty series, and `[0]` raises KeyError, so the
cleaning routine fails (models the uncaught exception as `none`) instead of
skipping the column as the spec requires. -/
theorem c3_all_missing_text_crashes :
    generate_plots ⟨[("c", ⟨Dtype.object, [Value.missing]⟩)]⟩ = none := by
  decide

/-- C7: an upload whose filename fails the extension whitelist is answered
with the plain-text rejection, and the trace records that nothing was stored,
no reader ran, and neither export file was written: parsing and cleaning
never begin. -/
theorem c7_bad_extension_rejected_early (filename : String) (df : DataFrame)
    (h : allowed_file filename = false) :
    upload_file true filename df =
      ⟨HttpResponse.invalidTypeMsg, none, none, false, false, none, []⟩ := by
  simp [upload_file, h]

theorem c7_bad_extension_rejected_early_witness :
    allowed_file "data.txt" = false ∧
    upload_file true "data.txt" ⟨[("a", ⟨Dtype.numeric, [Value.num 1]⟩)]⟩ =
      ⟨HttpResponse.invalidTypeMsg, none, none, false, false, none, []⟩ :=
  ⟨by decide,
   c7_bad_extension_rejected_early "data.txt" _ (by decide)⟩

/-- C10: the filename DATA.CSV passes the extension whitelist (the check
lowercases the extension) but the parser dispatch tests
`filename.endswith(".csv")` case-sensitively, so the stored file is routed to
the spreadsheet reader `pd.read_excel` instead of `pd.read_csv`. -/
theorem c10_uppercase_csv_misrouted :
    allowed_file "DATA.CSV" = true ∧
    (upload_file true "DATA.CSV" ⟨[("a", ⟨Dtype.numeric, [Value.num 1]⟩)]⟩).parsedWith =
      some ParseRoute.excelReader := by
  decide

/-- The plotting loop emits exactly one histogram-and-box-plot pair per
plotted column. -/
theorem perColImages_length (df : DataFrame) (l : List String) :
    (perColImages df l).length = 2 * (l.filter (colPlotted df)).length := by
  induction l with
  | nil => rfl
  | cons n rest ih =>
    cases hc : colByName df n with
    | none =>
      simp only [perColImages, List.filter_cons, colPlotted, hc]
      simpa using ih
    | some c =>
      by_cases hz : nonMissingCount c = 0
      · simp only [perColImages, List.filter_cons, colPlotted, hc, hz]
        simpa using ih
      · have hb : colPlotted df n = true := by
          simp [colPlotted, hc, bne_iff_ne, hz]
        simp only [perColImages, List.filter_cons, hc, hb, if_true]
        rw [if_neg hz]
        simp only [List.length_append, List.length_cons, List.length_nil, ih]
        omega

/-- The per-column part of the image sequence never holds the heatmap. -/
theorem heat_not_mem_perColImages (df : DataFrame) (l : List String) :
    PlotImg.heat ∉ perColImages df l := by
  induction l with
  | nil => simp [perColImages]
  | cons n rest ih =>
    cases hc : colByName df n with
    | none =>
      simp only [perColImages, hc]
      simpa using ih
    | some c =>
      by_cases hz : nonMissingCount c = 0
      · simp only [perColImages, hc, hz]
        simpa using ih
      · simp only [perColImages, hc]
        rw [if_neg hz]
        simp [ih]

/-- C4 amended: the image-sequence length is 2 times the number of numeric
columns that still hold a non-missing value, plus 1 exactly when the TOTAL
number of numeric columns (all-missing ones included) is at least two; the
correlation heatmap is appended under that total count, even when fewer than
two plottable numeric columns remain. -/
theorem c4_image_count (df : DataFrame) (out : List PlotImg × DataFrame)
    (h : generate_plots df = some out) :
    out.1.length =
      2 * (((coerceStep df).2).filter (colPlotted out.2)).length +
        (if 1 < ((coerceStep df).2).length then 1 else 0) ∧
    (PlotImg.heat ∈ out.1 ↔ 1 < ((coerceStep df).2).length) := by
  obtain ⟨d2, hm, rfl⟩ := generate_plots_eq_some h
  constructor
  · simp only [makeImages, List.length_append, perColImages_length]
    split <;> simp
  · simp only [makeImages, List.mem_append]
    constructor
    · rintro (hmem | hmem)
      · exact absurd hmem (heat_not_mem_perColImages _ _)
      · by_cases hc : 1 < ((coerceStep df).2).length
        · exact hc
        · rw [if_neg hc] at hmem
          simp at hmem
    · intro hc
      right
      simp [hc]

/-- Data for the C4 counterexample: two numeric columns, the second entirely
missing. -/
def dfC4ex : DataFrame :=
  ⟨[("a", ⟨Dtype.numeric, [Value.num 1, Value.num 2]⟩),
    ("b", ⟨Dtype.numeric, [Value.missing, Value.missing]⟩)]⟩

/-- C4 counterexample: with 2 numeric columns of which one is all-missing,
the code emits 3 images, not 2 x 2 + 1 = 5; and the heatmap IS appended even
though only one numeric column remains after skipping the all-missing one,
refuting "appended exactly when two or more numeric columns remain after
skipping". -/
theorem c4_counterexample :
    (generate_plots dfC4ex).map Prod.fst =
      some [PlotImg.hist "a", PlotImg.box "a", PlotImg.heat] ∧
    ((coerceStep dfC4ex).2).length = 2 ∧
    ([PlotImg.hist "a", PlotImg.box "a", PlotImg.heat] : List PlotImg).length ≠ 2 * 2 + 1 ∧
    (generate_plots dfC4ex).map Prod.snd = some dfC4ex ∧
    ((coerceStep dfC4ex).2.filter (colPlotted dfC4ex)).length = 1 ∧
    PlotImg.heat ∈ ([PlotImg.hist "a", PlotImg.box "a", PlotImg.heat] : List PlotImg) := by
  decide

theorem c4_image_count_witness :
    generate_plots ⟨[("a", ⟨Dtype.numeric, [Value.num 1]⟩),
        ("b", ⟨Dtype.numeric, [Value.num 2]⟩)]⟩ =
      some ([PlotImg.hist "a", PlotImg.box "a", PlotImg.hist "b", PlotImg.box "b", PlotImg.heat],
        ⟨[("a", ⟨Dtype.numeric, [Value.num 1]⟩), ("b", ⟨Dtype.numeric, [Value.num 2]⟩)]⟩) ∧
    (([PlotImg.hist "a", PlotImg.box "a", PlotImg.hist "b", PlotImg.box "b", PlotImg.heat] :
        List PlotImg).length =
      2 * (((coerceStep ⟨[("a", ⟨Dtype.numeric, [Value.num 1]⟩),
          ("b", ⟨Dtype.numeric, [Value.num 2]⟩)]⟩).2).filter
        (colPlotted ⟨[("a", ⟨Dtype.numeric, [Value.num 1]⟩),
          ("b", ⟨Dtype.numeric, [Value.num 2]⟩)]⟩)).length +
        (if 1 < ((coerceStep ⟨[("a", ⟨Dtype.numeric, [Value.num 1]⟩),
          ("b", ⟨Dtype.numeric, [Value.num 2]⟩)]⟩).2).length then 1 else 0)) := by
  refine ⟨by decide, ?_⟩
  have h := c4_image_count
    ⟨[("a", ⟨Dtype.numeric, [Value.num 1]⟩), ("b", ⟨Dtype.numeric, [Value.num 2]⟩)]⟩
    ([PlotImg.hist "a", PlotImg.box "a", PlotImg.hist "b", PlotImg.box "b", PlotImg.heat],
      ⟨[("a", ⟨Dtype.numeric, [Value.num 1]⟩), ("b", ⟨Dtype.numeric, [Value.num 2]⟩)]⟩)
    (by decide)
  exact h.1

/-- The plotting loop is exactly: one histogram-box pair per plotted column,
in the order of `numeric_cols`. -/
theorem perColImages_eq_flatMap (df : DataFrame) (l : List String) :
    perColImages df l =
      (l.filter (colPlotted df)).flatMap
        (fun n => [PlotImg.hist n, PlotImg.box n]) := by
  induction l with
  | nil => rfl
  | cons n rest ih =>
    cases hc : colByName df n with
    | none =>
      simp only [perColImages, List.filter_cons, colPlotted, hc]
      simpa using ih
    | some c =>
      by_cases hz : nonMissingCount c = 0
      · simp only [perColImages, List.filter_cons, colPlotted, hc, hz]
        simpa using ih
      · have hb : colPlotted df n = true := by
          simp [colPlotted, hc, bne_iff_ne, hz]
        simp only [perColImages, List.filter_cons, hc, hb, if_true]
        rw [if_neg hz]
        simp [ih]

/-- The numeric-column names are collected in the order of the table columns:
a sublist of the column names. -/
theorem coerce_names_sublist (l : List (String × Col)) :
    ((l.map (fun nc => (nc.1, convertCol nc.2))).filterMap
        (fun nc => if nc.2.2 then some nc.1 else none)).Sublist
      (l.map Prod.fst) := by
  induction l with
  | nil => simp
  | cons nc rest ih =>
    simp only [List.map_cons, List.filterMap_cons]
    by_cases hb : (convertCol nc.2).2 = true
    · rw [if_pos hb]
      exact ih.cons₂ nc.1
    · rw [if_neg hb]
      exact ih.cons nc.1

/-- C9: the image sequence is the histogram-then-box-plot pairs of the
plotted numeric columns, in `numeric_cols` order (itself a sublist of the
table column order), with the heatmap appended after all of them; whenever
the heatmap is present it is the last element. -/
theorem c9_image_order (df : DataFrame) (out : List PlotImg × DataFrame)
    (h : generate_plots df = some out) :
    out.1 =
      (((coerceStep df).2).filter (colPlotted out.2)).flatMap
          (fun n => [PlotImg.hist n, PlotImg.box n]) ++
        (if 1 < ((coerceStep df).2).length then [PlotImg.heat] else []) ∧
    ((coerceStep df).2).Sublist (df.cols.map Prod.fst) ∧
    (PlotImg.heat ∈ out.1 → out.1.getLast? = some PlotImg.heat) := by
  obtain ⟨d2, hm, rfl⟩ := generate_plots_eq_some h
  refine ⟨?_, ?_, ?_⟩
  · simp only [makeImages, perColImages_eq_flatMap]
  · simp only [coerceStep]
    exact coerce_names_sublist df.cols
  · intro hmem
    by_cases hc : 1 < ((coerceStep df).2).length
    · show (makeImages d2 ((coerceStep df).2)).getLast? = some PlotImg.heat
      unfold makeImages
      rw [if_pos hc]
      exact List.getLast?_concat _
    · exfalso
      simp only [makeImages, List.mem_append] at hmem
      rcases hmem with hmem | hmem
      · exact heat_not_mem_perColImages _ _ hmem
      · rw [if_neg hc] at hmem
        simp at hmem

theorem c9_image_order_witness :
    generate_plots ⟨[("a", ⟨Dtype.numeric, [Value.num 1]⟩),
        ("b", ⟨Dtype.numeric, [Value.num 2]⟩)]⟩ =
      some ([PlotImg.hist "a", PlotImg.box "a", PlotImg.hist "b", PlotImg.box "b", PlotImg.heat],
        ⟨[("a", ⟨Dtype.numeric, [Value.num 1]⟩), ("b", ⟨Dtype.numeric, [Value.num 2]⟩)]⟩) ∧
    (PlotImg.heat ∈
        ([PlotImg.hist "a", PlotImg.box "a", PlotImg.hist "b", PlotImg.box "b", PlotImg.heat] :
          List PlotImg) →
      ([PlotImg.hist "a", PlotImg.box "a", PlotImg.hist "b", PlotImg.box "b", PlotImg.heat] :
          List PlotImg).getLast? = some PlotImg.heat) := by
  refine ⟨by decide, ?_⟩
  have h := c9_image_order
    ⟨[("a", ⟨Dtype.numeric, [Value.num 1]⟩), ("b", ⟨Dtype.numeric, [Value.num 2]⟩)]⟩
    ([PlotImg.hist "a", PlotImg.box "a", PlotImg.hist "b", PlotImg.box "b", PlotImg.heat],
      ⟨[("a", ⟨Dtype.numeric, [Value.num 1]⟩), ("b", ⟨Dtype.numeric, [Value.num 2]⟩)]⟩)
    (by decide)
  exact h.2.2

/-- Data for the C8 counterexample: a text column that stays below the
numeric threshold only because of its missing values. -/
def dfC8ex : DataFrame :=
  ⟨[("c", ⟨Dtype.object,
    [Value.text "1", Value.text "a", Value.missing, Value.missing, Value.missing]⟩)]⟩

/-- The cleaned form of `dfC8ex`: the mode "1" fills the three gaps. -/
def dfC8clean : DataFrame :=
  ⟨[("c", ⟨Dtype.object,
    [Value.text "1", Value.text "a", Value.text "1", Value.text "1", Value.text "1"]⟩)]⟩

/-- C8 counterexample: the cleaned table has no missing values and its CSV
round trip reproduces it exactly, yet re-running the cleaning routine does
NOT leave it unchanged: mode-filling pushed the column to 4 of 5 parsable
values, so the second run coerces it to numeric and imputes again, refuting
"re-running the cleaning routine performs no further imputation". -/
theorem c8_counterexample :
    (generate_plots dfC8ex).map Prod.snd = some dfC8clean ∧
    dfNoMissing dfC8clean = true ∧
    reingest dfC8clean = dfC8clean ∧
    (generate_plots (reingest dfC8clean)).map Prod.snd ≠ some dfC8clean := by
  decide

/-- Round trip is the identity on a column that has no missing cell, no
empty-string cell, and (when it is a text column) at least one value that
does not parse as a number. -/
theorem roundtripCol_id (c : Col)
    (hne : c.cells.all (fun v => v != Value.text "") = true)
    (hblock : c.dtype = Dtype.object → ¬(c.cells.all plainCellNum = true)) :
    roundtripCol c = c := by
  cases c with
  | mk dt cells =>
    cases dt with
    | numeric => rfl
    | object =>
      have hnall := hblock rfl
      simp only [roundtripCol]
      have hcl : cells.map (fun v => if v = Value.text "" then Value.missing else v) =
          cells := by
        have hmc : cells.map (fun v => if v = Value.text "" then Value.missing else v) =
            cells.map id :=
          List.map_congr_left (fun v hv => by
            have hv' := List.all_eq_true.mp hne v hv
            simp only [bne_iff_ne, ne_eq] at hv'
            simp [hv'])
        rw [hmc, List.map_id]
      rw [hcl, if_neg hnall]

/-- Coercion is the identity (and keeps every column below threshold as text)
when every object column is below the numeric threshold. -/
theorem coerceStep_id (df : DataFrame) (h4 : objColsStayText df = true) :
    (coerceStep df).1 = df := by
  cases df with
  | mk cols =>
    unfold objColsStayText at h4
    simp only at h4
    simp only [coerceStep]
    congr 1
    rw [List.map_map]
    have hid : cols.map ((fun nc => (nc.1, nc.2.1)) ∘
        (fun nc => ((nc : String × Col).1, convertCol nc.2))) = cols.map id := by
      apply List.map_congr_left
      intro nc hnc
      have hcol := List.all_eq_true.mp h4 nc hnc
      cases hdt : nc.2.dtype with
      | numeric => simp [Function.comp, convertCol, hdt]
      | object =>
        rw [hdt] at hcol
        simp only [bne_self_eq_false, Bool.false_or, Bool.not_eq_true',
          decide_eq_false_iff_not] at hcol
        simp only [Function.comp, convertCol, hdt, id_eq]
        rw [if_neg hcol]
    rw [hid, List.map_id]

/-- Mean filling is the identity on a column with no missing cell. -/
theorem meanFill_id (cells : List Value)
    (hnm : cells.all (fun v => !v.isMissing) = true) : meanFill cells = cells := by
  unfold meanFill
  cases colMean cells with
  | none => rfl
  | some m =>
    have hmc : cells.map (fun v => match v with | .missing => Value.num m | _ => v) =
        cells.map id :=
      List.map_congr_left (fun v hv => by
        have hv' := List.all_eq_true.mp hnm v hv
        cases v <;> simp_all [Value.isMissing])
    exact hmc.trans (List.map_id cells)

/-- The mean-imputation pass is the identity on a frame with no missing
cell. -/
theorem meanStep_id (df : DataFrame) (h1 : dfNoMissing df = true) :
    meanStep df = df := by
  cases df with
  | mk cols =>
    unfold dfNoMissing at h1
    simp only at h1
    simp only [meanStep]
    congr 1
    have hid : cols.map (fun nc => match nc.2.dtype with
        | Dtype.numeric => ((nc : String × Col).1, ⟨Dtype.numeric, meanFill nc.2.cells⟩)
        | Dtype.object => nc) = cols.map id := by
      apply List.map_congr_left
      intro nc hnc
      have hcol := List.all_eq_true.mp h1 nc hnc
      cases hdt : nc.2.dtype with
      | numeric =>
        simp only [hdt, id]
        rw [meanFill_id nc.2.cells hcol, ← hdt]
      | object => simp [hdt]
    rw [hid, List.map_id]

/-- A nonempty no-missing column that is below the numeric threshold must
hold at least one text cell. -/
theorem textCells_ne_nil (cells : List Value)
    (hlen : cells.length ≠ 0)
    (hnm : cells.all (fun v => !v.isMissing) = true)
    (hth : ¬(cells.length < 2 * (cells.map toNumericCoerce).countP Value.isNum)) :
    textCells cells ≠ [] := by
  intro hempty
  unfold textCells at hempty
  apply hth
  have hcnt : (cells.map toNumericCoerce).countP Value.isNum = cells.length := by
    rw [List.countP_map]
    apply List.countP_eq_length.mpr
    intro v hv
    have h1 := List.all_eq_true.mp hnm v hv
    have h2 := List.filterMap_eq_nil.mp hempty v hv
    cases v with
    | num q => simp [Function.comp, toNumericCoerce, Value.isNum]
    | text s => simp at h2
    | missing => simp [Value.isMissing] at h1
  rw [hcnt]
  omega

/-- The maximum a `foldr max 0` computes over a nonempty list of naturals is
attained in the list. -/
theorem foldr_max_mem (l : List ℕ) (h : l ≠ []) : l.foldr max 0 ∈ l := by
  induction l with
  | nil => exact absurd rfl h
  | cons a t ih =>
    cases t with
    | nil => simp
    | cons b t2 =>
      rcases le_total a ((b :: t2).foldr max 0) with hle | hle
      · have : (a :: b :: t2).foldr max 0 = (b :: t2).foldr max 0 := by
          simp only [List.foldr_cons]
          exact max_eq_right hle
        rw [this]
        exact List.mem_cons_of_mem a (ih (by simp))
      · have : (a :: b :: t2).foldr max 0 = a := by
          simp only [List.foldr_cons]
          exact max_eq_left hle
        rw [this]
        exact List.mem_cons_self a _

/-- The accumulator that picks the smallest candidate yields a value on any
nonempty list. -/
theorem foldr_pick_isSome (l : List String)
    (h : l ≠ []) :
    (l.foldr (fun s acc =>
      match acc with
      | none => some s
      | some t => some (if strLtb s t then s else t)) none).isSome = true := by
  cases l with
  | nil => exact absurd rfl h
  | cons a t =>
    simp only [List.foldr_cons]
    cases t.foldr (fun s acc =>
      match acc with
      | none => some s
      | some t => some (if strLtb s t then s else t)) none <;> simp

/-- A column with at least one text cell has a mode. -/
theorem colMode_isSome (cells : List Value) (h : textCells cells ≠ []) :
    (colMode cells).isSome = true := by
  simp only [colMode]
  apply foldr_pick_isSome
  have hmapne : (textCells cells).map (fun s => (textCells cells).count s) ≠ [] := by
    simpa using h
  have hmem := foldr_max_mem _ hmapne
  rcases List.mem_map.mp hmem with ⟨s, hs, hcount⟩
  apply List.ne_nil_of_mem (a := s)
  apply List.mem_filter.mpr
  exact ⟨hs, by simp [hcount]⟩

/-- Mode filling succeeds and is the identity on a column with no missing
cell that is below the numeric threshold. -/
theorem modeFill_id (cells : List Value)
    (hnm : cells.all (fun v => !v.isMissing) = true)
    (hth : ¬(cells.length < 2 * (cells.map toNumericCoerce).countP Value.isNum)) :
    modeFill cells = some cells := by
  unfold modeFill
  by_cases hlen : cells.length = 0
  · rw [if_pos hlen]
  · rw [if_neg hlen]
    have hsome := colMode_isSome cells (textCells_ne_nil cells hlen hnm hth)
    cases hm : colMode cells with
    | none => rw [hm] at hsome; cases hsome
    | some m =>
      have hmc : cells.map (fun v => match v with | .missing => Value.text m | _ => v) =
          cells.map id :=
        List.map_congr_left (fun v hv => by
          have hv' := List.all_eq_true.mp hnm v hv
          cases v <;> simp_all [Value.isMissing])
      exact congrArg some (hmc.trans (List.map_id cells))

/-- Mode imputation succeeds and is the identity on frames whose cells are
never missing and whose object columns are below the numeric threshold. -/
theorem modeCols_id (l : List (String × Col))
    (hnm : l.all (fun nc => nc.2.cells.all (fun v => !v.isMissing)) = true)
    (hth : l.all (fun nc => nc.2.dtype != Dtype.object ||
        !(nc.2.cells.length < 2 * (nc.2.cells.map toNumericCoerce).countP Value.isNum)) =
      true) :
    modeCols l = some l := by
  induction l with
  | nil => rfl
  | cons nc rest ih =>
    rw [List.all_cons, Bool.and_eq_true] at hnm hth
    cases hdt : nc.2.dtype with
    | numeric =>
      simp only [modeCols, hdt]
      rw [ih hnm.2 hth.2]
      rfl
    | object =>
      have hth1 := hth.1
      rw [hdt] at hth1
      simp only [bne_self_eq_false, Bool.false_or, Bool.not_eq_true',
        decide_eq_false_iff_not] at hth1
      simp only [modeCols, hdt]
      rw [modeFill_id nc.2.cells hnm.1 hth1, ih hnm.2 hth.2]
      simp only [Option.map_some']
      congr 2
      rw [← hdt]

/-- C8 amended: exporting a cleaned table and re-ingesting it yields the very
same table, and re-running the cleaning routine leaves it unchanged (no
further imputation), PROVIDED no cell is missing, no text cell is the empty
string, every object column holds at least one value that does not parse as a
number, and every object column is below the numeric-coercion threshold.
Mode imputation can violate the last condition (see the counterexample), in
which case re-cleaning coerces and re-imputes the column. -/
theorem c8_roundtrip_stable (d : DataFrame)
    (h1 : dfNoMissing d = true)
    (h2 : dfNoEmptyText d = true)
    (h3 : objColsBlocked d = true)
    (h4 : objColsStayText d = true) :
    reingest d = d ∧ (generate_plots d).map Prod.snd = some d := by
  constructor
  · cases hd : d with
    | mk cols =>
      rw [hd] at h2 h3
      unfold dfNoEmptyText at h2
      unfold objColsBlocked at h3
      simp only at h2 h3
      unfold reingest
      congr 1
      have hid : cols.map (fun nc => ((nc : String × Col).1, roundtripCol nc.2)) =
          cols.map id := by
        apply List.map_congr_left
        intro nc hnc
        have hc2 := List.all_eq_true.mp h2 nc hnc
        have hc3 := List.all_eq_true.mp h3 nc hnc
        have hrt : roundtripCol nc.2 = nc.2 := by
          apply roundtripCol_id nc.2 hc2
          intro hdt
          rw [hdt] at hc3
          simp only [bne_self_eq_false, Bool.false_or, Bool.and_eq_true,
            Bool.not_eq_true'] at hc3
          intro hall
          rw [hall] at hc3
          exact absurd hc3.2 (by simp)
        rw [hrt, id_eq]
      rw [hid, List.map_id]
  · have hc : (coerceStep d).1 = d := coerceStep_id d h4
    have hm : meanStep d = d := meanStep_id d h1
    have hmo : modeStep d = some d := by
      unfold modeStep
      have hnm' : d.cols.all (fun nc => nc.2.cells.all (fun v => !v.isMissing)) = true := h1
      have hth' : d.cols.all (fun nc => nc.2.dtype != Dtype.object ||
          !(nc.2.cells.length <
            2 * (nc.2.cells.map toNumericCoerce).countP Value.isNum)) = true := h4
      rw [modeCols_id d.cols hnm' hth']
      rfl
    simp only [generate_plots, cleanDF, hc, hm, hmo, Option.map_some']

theorem c8_roundtrip_stable_witness :
    dfNoMissing ⟨[("a", ⟨Dtype.numeric, [Value.num 1]⟩),
      ("c", ⟨Dtype.object, [Value.text "x", Value.text "y"]⟩)]⟩ = true ∧
    dfNoEmptyText ⟨[("a", ⟨Dtype.numeric, [Value.num 1]⟩),
      ("c", ⟨Dtype.object, [Value.text "x", Value.text "y"]⟩)]⟩ = true ∧
    objColsBlocked ⟨[("a", ⟨Dtype.numeric, [Value.num 1]⟩),
      ("c", ⟨Dtype.object, [Value.text "x", Value.text "y"]⟩)]⟩ = true ∧
    objColsStayText ⟨[("a", ⟨Dtype.numeric, [Value.num 1]⟩),
      ("c", ⟨Dtype.object, [Value.text "x", Value.text "y"]⟩)]⟩ = true ∧
    (reingest ⟨[("a", ⟨Dtype.numeric, [Value.num 1]⟩),
        ("c", ⟨Dtype.object, [Value.text "x", Value.text "y"]⟩)]⟩ =
      ⟨[("a", ⟨Dtype.numeric, [Value.num 1]⟩),
        ("c", ⟨Dtype.object, [Value.text "x", Value.text "y"]⟩)]⟩ ∧
    (generate_plots ⟨[("a", ⟨Dtype.numeric, [Value.num 1]⟩),
        ("c", ⟨Dtype.object, [Value.text "x", Value.text "y"]⟩)]⟩).map Prod.snd =
      some ⟨[("a", ⟨Dtype.numeric, [Value.num 1]⟩),
        ("c", ⟨Dtype.object, [Value.text "x", Value.text "y"]⟩)]⟩) :=
  ⟨by decide, by decide, by decide, by decide,
   c8_roundtrip_stable _ (by decide) (by decide) (by decide) (by decide)⟩
